import Mathlib

/-
  Verification development for the Finanz-Weg classroom-simulation servers.

  The repository contains several incrementally revised versions of the same
  small game server.  Each namespace below is a shallow embedding of one
  revision, translated directly from its JavaScript source:

  * FinanzWeg.Rev1    — the first revision inside server-2.js (the version with
                        sessionViewFor, recalcPhase, host:next / host:continue,
                        applyDecisionEffects and the student:decision handler).
                        The revision in src/unnamed/part_002 has identical
                        logic for all functions modelled here, plus profile
                        assignment that does not touch the modelled fields.
  * FinanzWeg.Rev2    — the second revision inside server-2.js (the version
                        with phaseBounds, clampTourPerso, hostNext and
                        personalizedSessionSnapshot).
  * FinanzWeg.ServerJs — src/server.js (the APPLY-EFFECTS-per-year version
                        with ensureSession and the yearly settlement).
  * FinanzWeg.Unified — src/unnamed/part_003 (the unified build with long and
                        blitz modes, setMode, nextTurn and the key-counting
                        answered rule).

  Modelling conventions, used uniformly:
  * JavaScript numbers holding money (patrimoine, salaire, costOfLiving) are
    integers in Rev1: every mutation adds or subtracts an integer constant and
    the code re-applies Math.round after each mutation, which is the identity
    on integers; they are therefore modelled as Int.  In ServerJs money fields
    are multiplied by 1.10 and 1.05 before rounding, so they are modelled as
    Rat with the rounding made explicit.
  * Math.round is jsRound below: round-half-up, the same convention as
    Mathlib round (both send x to the floor of x + 1/2, also for negative x).
  * toFixed(2) followed by unary plus, and the round((x + EPSILON)*100)/100
    idiom, are modelled as round2 below: rounding to two decimal places.  The
    Number.EPSILON nudge only compensates for binary-float representation
    error and has no counterpart in exact rational arithmetic.
  * Fields that only feed the presentation layer and never flow back into the
    game state — deadline, lastActive, statusLight, logs — are omitted, as are
    the socket registries.  Wall-clock time and random card draws are
    abstracted: handlers that draw random cards take the drawn cards as an
    explicit argument.
  * JavaScript Map / plain-object dictionaries that are only ever read back
    pointwise are modelled as functions with pointwise update; the one place
    where the code counts the number of keys of an object (part_003) uses an
    association list instead, mirroring the key set of the object.
  * Thrown exceptions (server.js ensureSession) are modelled with Except.
-/

namespace FinanzWeg

/-- Math.round of JavaScript: round half up, defined as floor (q + 1/2).
This is the same function as Mathlib round on the rationals. -/
def jsRound (q : ℚ) : ℤ := Rat.floor (q + 1/2)

/-- Rounding to two decimal places, the model of +(x).toFixed(2) and of
Math.round((x + Number.EPSILON)*100)/100. -/
def round2 (q : ℚ) : ℚ := (jsRound (q * 100) : ℚ) / 100

/-- The clamp helper of server-2.js on rationals: clamp(v,a,b) = max(a, min(b,v)). -/
def clampQ (v lo hi : ℚ) : ℚ := max lo (min hi v)

/-- The clamp helper of server-2.js on naturals. -/
def clampN (v lo hi : ℕ) : ℕ := max lo (min hi v)

/-- The model of JavaScript toLowerCase on the card-type strings: lower the
case of every character.  (Defined via List.map so that it evaluates by
kernel reduction; it agrees with String.toLower.) -/
def lowercase (s : String) : String := ⟨s.data.map Char.toLower⟩

/-- JavaScript truthiness of an optional number in the idiom (x || d):
null, undefined and 0 all fall back to the default. -/
def jsOrN (o : Option ℕ) (dflt : ℕ) : ℕ :=
  match o with
  | some v => if v = 0 then dflt else v
  | none => dflt

namespace Rev1

/-- The phase record returned by phaseForTurn in the first revision of
server-2.js: identifier letter, turn range and host-controlled flag. -/
structure Phase where
  id : Char
  first : ℕ
  last : ℕ
  host : Bool
deriving DecidableEq, Repr

/-- phaseForTurn of server-2.js (first revision): the fixed partition of
turns 1..42 into ranges A, B, C, D, E, with the A range as default. -/
def phaseForTurn (t : ℕ) : Phase :=
  if 1 ≤ t ∧ t ≤ 7 then ⟨'A', 1, 7, true⟩
  else if 8 ≤ t ∧ t ≤ 21 then ⟨'B', 8, 21, false⟩
  else if 22 ≤ t ∧ t ≤ 26 then ⟨'C', 22, 26, true⟩
  else if 27 ≤ t ∧ t ≤ 37 then ⟨'D', 27, 37, false⟩
  else if 38 ≤ t ∧ t ≤ 42 then ⟨'E', 38, 42, true⟩
  else ⟨'A', 1, 7, true⟩

/-- A card as produced by cardFromTemplate. -/
structure Card where
  type : String
  titre : String
  texte : String
  imperative : Bool
  requiresInvestment : Bool
  cardResume : String
  impacts : String
  exemples : String
  conseils : String
  choices : Option (List (String × String))
deriving DecidableEq, Repr

/-- cardFromTemplate of server-2.js (first revision): the placeholder card
generated for a given turn and card type.  String templates are reproduced
verbatim, with the turn number rendered in decimal. -/
def cardFromTemplate (turn : ℕ) (ty : String) : Card :=
  let titre :=
    if ty = "evenement" then "Évènement de l'année " ++ Nat.repr turn
    else if ty = "proposition" then "Proposition d'investissement " ++ Nat.repr turn
    else if ty = "contrainte" then "Contrainte financière " ++ Nat.repr turn
    else if ty = "bonus" then "Bonus/opportunité " ++ Nat.repr turn
    else "Carte " ++ ty ++ " " ++ Nat.repr turn
  let texte :=
    if ty = "evenement" then "Une situation particulière survient à l'année " ++ Nat.repr turn ++ "."
    else if ty = "proposition" then "Option d'investir avec un montant de base et/ou mensuel."
    else if ty = "contrainte" then "Une dépense ou obligation surgit à l'année " ++ Nat.repr turn ++ "."
    else if ty = "bonus" then "Un avantage potentiel est proposé cette année."
    else ""
  let isInvest := ty = "proposition"
  { type := ty
    titre := titre
    texte := texte
    imperative := false
    requiresInvestment := isInvest
    cardResume := "Résumé " ++ ty ++ " — année " ++ Nat.repr turn ++ "."
    impacts := "Impacts financiers potentiels à l'année " ++ Nat.repr turn ++ "."
    exemples := "Exemples concrets liés à " ++ ty ++ " (année " ++ Nat.repr turn ++ ")."
    conseils := "Conseils pour gérer " ++ ty ++ " à l'année " ++ Nat.repr turn ++ "."
    choices := if isInvest then none else some [("A", "Accepter"), ("B", "Refuser")] }

/-- One entry of the pre-generated deck.  Card slots are optional so that the
same structure also covers the part_002 variant, where cardFromJSON may
return null; generateDeck of the first revision always fills all four. -/
structure DeckEntry where
  turn : ℕ
  age : ℕ
  evenement : Option Card
  proposition : Option Card
  contrainte : Option Card
  bonus : Option Card
deriving DecidableEq, Repr

/-- Access a deck entry slot by its card-type name, the model of d[k]. -/
def DeckEntry.slot (d : DeckEntry) (k : String) : Option Card :=
  if k = "evenement" then d.evenement
  else if k = "proposition" then d.proposition
  else if k = "contrainte" then d.contrainte
  else if k = "bonus" then d.bonus
  else none

/-- generateDeck of server-2.js (first revision): 42 deck entries, one per
turn, with age 18 + (t-1) and the four template cards. -/
def generateDeck : List DeckEntry :=
  (List.range 42).map fun i =>
    let t := i + 1
    { turn := t
      age := 18 + (t - 1)
      evenement := some (cardFromTemplate t "evenement")
      proposition := some (cardFromTemplate t "proposition")
      contrainte := some (cardFromTemplate t "contrainte")
      bonus := some (cardFromTemplate t "bonus") }

/-- The active-card bundle placed in a snapshot. -/
structure Bundle where
  evenement : Option Card
  proposition : Option Card
  contrainte : Option Card
  bonus : Option Card
deriving DecidableEq, Repr

def DeckEntry.bundle (d : DeckEntry) : Bundle :=
  ⟨d.evenement, d.proposition, d.contrainte, d.bonus⟩

/-- The bundle shown for 1-indexed turn t: deck[t-1], absent when the index
is out of range (deck[t-1] undefined in the source). -/
def activeAt (deck : List DeckEntry) (t : ℕ) : Option Bundle :=
  (deck.get? (t - 1)).map DeckEntry.bundle

/-- The investment payload carried in msg.extra.  The handler parses the
amounts with parseInt and clamps them with Math.max(0, ...); the raw parsed
values are integers. -/
structure Extra where
  amountInit : ℤ
  amountMonthly : ℤ
deriving DecidableEq, Repr

/-- A stored decision: chosen option, label, optional investment payload and
the edited flag added by host:editDecision. -/
structure Decision where
  choiceId : Option String
  label : Option String
  extra : Option Extra
  edited : Bool
deriving DecidableEq, Repr

/-- A player of the first revision.  The fields role, statusLight and
lastActive only feed the presentation layer and are omitted. -/
structure Player where
  id : String
  name : String
  tourPerso : ℕ
  patrimoine : ℤ
  salaire : ℤ
  costOfLiving : ℤ
  rentenpunkte : ℚ
  answered : Bool
deriving DecidableEq

/-- makeBlankPlayer, with the id taken as a parameter in place of nanoid. -/
def makeBlankPlayer (id name : String) : Player :=
  { id := id, name := name, tourPerso := 1, patrimoine := 0, salaire := 0
    costOfLiving := 0, rentenpunkte := 0, answered := false }

/-- The decision store: playerId, then turn, then card type.  The source
stores nested Maps and plain objects but only ever reads them back
pointwise, so a function with pointwise update is an exact observational
model (ensureDecisionsMap creating empty inner maps has no observable
effect beyond lookups). -/
def DecisionStore := String → ℕ → String → Option Decision

def DecisionStore.set (f : DecisionStore) (pid : String) (turn : ℕ) (ty : String)
    (d : Decision) : DecisionStore :=
  fun pid' turn' ty' =>
    if pid' = pid ∧ turn' = turn ∧ ty' = ty then some d else f pid' turn' ty'

/-- A session of the first revision.  deadline, logs and the socket sets are
presentation / transport state and are omitted. -/
structure Session where
  code : String
  started : Bool
  paused : Bool
  turnGlobal : ℕ
  phase : Char
  deck : List DeckEntry
  players : List Player
  decisions : DecisionStore

/-- defaultSession of the first revision. -/
def defaultSession (code : String) : Session :=
  { code := code, started := false, paused := false, turnGlobal := 1
    phase := 'A', deck := [], players := [], decisions := fun _ _ _ => none }

def findPlayer (s : Session) (pid : String) : Option Player :=
  s.players.find? fun p => p.id = pid

/-- Replace the player with the given id, the model of mutating the player
object held in the session map. -/
def setPlayer (s : Session) (pid : String) (p : Player) : Session :=
  { s with players := s.players.map fun q => if q.id = pid then p else q }

/-- applyDecisionEffects of server-2.js (first revision).  The trailing
block of Math.round calls is the identity on the integer money fields and
round2 on the rentenpunkte. -/
def applyDecisionEffects (p : Player) (ty : String) (payload : Decision) : Player :=
  let accepted := payload.choiceId = some "A" ∨ payload.label = some "Accepter"
  let p :=
    if ty = "proposition" then
      let ai : ℤ := max 0 ((payload.extra.map Extra.amountInit).getD 0)
      let am : ℤ := max 0 ((payload.extra.map Extra.amountMonthly).getD 0)
      if payload.choiceId = some "ACCEPT" then
        { p with patrimoine := p.patrimoine - ai
                 costOfLiving := p.costOfLiving + am
                 rentenpunkte := p.rentenpunkte + 5/100 }
      else p
    else if ty = "evenement" then
      if accepted then { p with patrimoine := p.patrimoine + 500 }
      else { p with patrimoine := p.patrimoine - 200 }
    else if ty = "contrainte" then
      if accepted then
        { p with patrimoine := p.patrimoine - 300, costOfLiving := p.costOfLiving + 30 }
      else p
    else if ty = "bonus" then
      if accepted then
        { p with patrimoine := p.patrimoine + 300, salaire := p.salaire + 20 }
      else p
    else p
  { p with rentenpunkte := round2 p.rentenpunkte }

/-- The required card types of a turn: the fixed four types filtered by
presence in deck[turn-1], exactly as in computeAnsweredForPlayer. -/
def requiredTypes (deck : List DeckEntry) (turn : ℕ) : List String :=
  ["evenement", "proposition", "contrainte", "bonus"].filter fun k =>
    match deck.get? (turn - 1) with
    | some d => (d.slot k).isSome
    | none => false

/-- The relevant turn of a player: the global turn in a host-controlled
phase, the personal turn otherwise. -/
def relevantTurn (s : Session) (p : Player) : ℕ :=
  if (phaseForTurn s.turnGlobal).host then s.turnGlobal else p.tourPerso

/-- computeAnsweredForPlayer of server-2.js (first revision). -/
def computeAnsweredForPlayer (s : Session) (p : Player) : Player :=
  let turn := relevantTurn s p
  { p with answered := (requiredTypes s.deck turn).all fun k => (s.decisions p.id turn k).isSome }

/-- recalcPhase of server-2.js (first revision): derive the phase letter and
set paused exactly when the global turn is 21. -/
def recalcPhase (s : Session) : Session :=
  { s with phase := (phaseForTurn s.turnGlobal).id
           paused := s.turnGlobal = 21 }

/-- The host:resume handler restricted to session state: recalcPhase (the
deadline write is not modelled). -/
def hostResume (s : Session) : Session := recalcPhase s

/-- The host:start handler: generate the deck, reset to turn 1, recalculate
the phase and align every player to the global turn. -/
def hostStart (s : Session) : Session :=
  let s := { s with deck := generateDeck, started := true, turnGlobal := 1, paused := false }
  let s := recalcPhase s
  { s with players := s.players.map fun p => { p with tourPerso := s.turnGlobal } }

/-- The host:next handler of the first revision.  In a non-host phase it is
a no-op; below the phase end it advances the global turn, aligns all
players and recomputes their answered flags; at the phase end it only
recalculates the phase (and would set paused at turn 21). -/
def hostNext (s : Session) : Session :=
  let ph := phaseForTurn s.turnGlobal
  if ph.host = false then s
  else if s.turnGlobal < ph.last then
    let s := { s with turnGlobal := s.turnGlobal + 1, paused := false }
    let s := { s with players := s.players.map fun p => { p with tourPerso := s.turnGlobal } }
    let s := recalcPhase s
    { s with players := s.players.map fun p => computeAnsweredForPlayer s p }
  else
    let s := recalcPhase s
    if s.turnGlobal = 21 then { s with paused := true } else s

/-- The host:continue handler: at global turn 21 move to 22, clear the pause
and align all players to 22; then recalculate the phase and recompute the
answered flags. -/
def hostContinue (s : Session) : Session :=
  let s :=
    if s.turnGlobal = 21 then
      { s with turnGlobal := 22, paused := false
               players := s.players.map fun p => { p with tourPerso := 22 } }
    else s
  let s := recalcPhase s
  { s with players := s.players.map fun p => computeAnsweredForPlayer s p }

/-- The host:editDecision handler: clamp the requested turn into 1..42 (a
missing or zero turn falls back to the global turn), overwrite the decision
with edited = true, re-apply the financial effects and recompute answered. -/
def hostEditDecision (s : Session) (pid : String) (turn : Option ℕ) (ty : String)
    (choiceId label : Option String) (extra : Option Extra) : Session :=
  match findPlayer s pid with
  | none => s
  | some p =>
    let tnr := clampN (jsOrN turn s.turnGlobal) 1 42
    let d : Decision := { choiceId := choiceId, label := label, extra := extra, edited := true }
    let s := { s with decisions := s.decisions.set pid tnr ty d }
    let p := applyDecisionEffects p ty d
    let p := computeAnsweredForPlayer s p
    setPlayer s pid p

/-- The student:join handler on an existing session, with the fresh id
taken as a parameter in place of nanoid.  The joining player starts at the
global turn; afterwards all answered flags are recomputed. -/
def studentJoin (s : Session) (freshId name : String) : Session :=
  let p := { makeBlankPlayer freshId name with tourPerso := s.turnGlobal }
  let s := { s with players := s.players ++ [p] }
  { s with players := s.players.map fun q => computeAnsweredForPlayer s q }

/-- The student:ready and student:resume handlers restricted to game state:
recompute the player's answered flag (lastActive and the status light are
not modelled). -/
def studentReady (s : Session) (pid : String) : Session :=
  match findPlayer s pid with
  | none => s
  | some p => setPlayer s pid (computeAnsweredForPlayer s p)

/-- The student:decision handler of the first revision: record the decision
at the player's relevant turn, apply the financial effects, recompute
answered, and in an autonomous phase advance the personal turn by one while
it is below the phase end, recomputing answered for the new turn. -/
def studentDecision (s : Session) (pid ty : String)
    (choiceId label : Option String) (extra : Option Extra) : Session :=
  match findPlayer s pid with
  | none => s
  | some p =>
    let ph := phaseForTurn s.turnGlobal
    let curTurn := if ph.host then s.turnGlobal else p.tourPerso
    let payload : Decision := { choiceId := choiceId, label := label, extra := extra, edited := false }
    let s := { s with decisions := s.decisions.set pid curTurn ty payload }
    let p := applyDecisionEffects p ty payload
    let p := computeAnsweredForPlayer s p
    let p :=
      if ph.host = false ∧ p.answered ∧ p.tourPerso < ph.last then
        computeAnsweredForPlayer s { p with tourPerso := p.tourPerso + 1 }
      else p
    setPlayer s pid p

/-- The session registry of the first revision (SESSIONS), keyed by code. -/
def Store := String → Option Session

def Store.set (store : Store) (code : String) (s : Session) : Store :=
  fun c => if c = code then some s else store c

/-- The role attached to a connection context. -/
inductive Role where
  | host
  | student
deriving DecidableEq, Repr

/-- The per-connection context stored in the CLIENTS registry. -/
structure Ctx where
  role : Role
  playerId : Option String
deriving DecidableEq, Repr

/-- The per-recipient snapshot built by sessionViewFor.  The player
summaries coincide with the modelled player fields; logs are omitted. -/
structure View where
  code : String
  phase : Char
  paused : Bool
  players : List Player
  turn : ℕ
  age : Option ℕ
  active : Option Bundle
  decisions : DecisionStore

/-- sessionViewFor of server-2.js (first revision): hosts, and every
recipient during a host-controlled phase, see the bundle of the global
turn; a student during an autonomous phase sees the bundle of their own
personal turn (falling back to the global turn when the player id is not
found in the session). -/
def sessionViewFor (ctx : Option Ctx) (s : Session) : View :=
  let isHost : Bool := match ctx with | some c => c.role == Role.host | none => false
  let ph := phaseForTurn s.turnGlobal
  let t :=
    if isHost || ph.host then s.turnGlobal
    else
      match ctx.bind fun c => c.playerId.bind fun pid => findPlayer s pid with
      | some me => me.tourPerso
      | none => s.turnGlobal
  { code := s.code, phase := s.phase, paused := s.paused, players := s.players
    turn := t
    age := (s.deck.get? (t - 1)).map DeckEntry.age
    active := activeAt s.deck t
    decisions := s.decisions }

/-- One handler invocation, with all message parameters universally
quantified.  This covers every message handler of the first revision that
can touch the modelled session state. -/
inductive Step : Session → Session → Prop where
  | hostResume (s : Session) : Step s (hostResume s)
  | hostStart (s : Session) : Step s (hostStart s)
  | hostNext (s : Session) : Step s (hostNext s)
  | hostContinue (s : Session) : Step s (hostContinue s)
  | hostEditDecision (s : Session) (pid : String) (turn : Option ℕ) (ty : String)
      (choiceId label : Option String) (extra : Option Extra) :
      Step s (hostEditDecision s pid turn ty choiceId label extra)
  | studentJoin (s : Session) (freshId name : String) : Step s (studentJoin s freshId name)
  | studentReady (s : Session) (pid : String) : Step s (studentReady s pid)
  | studentDecision (s : Session) (pid ty : String) (choiceId label : Option String)
      (extra : Option Extra) : Step s (studentDecision s pid ty choiceId label extra)

/-- A session state reachable from a fresh session by any sequence of
handler invocations. -/
def Reachable (code : String) (s : Session) : Prop :=
  Relation.ReflTransGen Step (defaultSession code) s

end Rev1

namespace Rev2

/-- phaseForTurn of the second revision of server-2.js: the phase letter of
a turn, with an em-dash placeholder outside 1..42. -/
def phaseForTurn (t : ℕ) : Char :=
  if 1 ≤ t ∧ t ≤ 7 then 'A'
  else if 8 ≤ t ∧ t ≤ 21 then 'B'
  else if 22 ≤ t ∧ t ≤ 26 then 'C'
  else if 27 ≤ t ∧ t ≤ 37 then 'D'
  else if 38 ≤ t ∧ t ≤ 42 then 'E'
  else '—'

/-- The bounds record returned by phaseBounds. -/
structure Bounds where
  first : ℕ
  last : ℕ
  mode : String
deriving DecidableEq, Repr

/-- phaseBounds of the second revision of server-2.js. -/
def phaseBounds (c : Char) : Bounds :=
  if c = 'A' then ⟨1, 7, "host"⟩
  else if c = 'B' then ⟨8, 21, "auto"⟩
  else if c = 'C' then ⟨22, 26, "host"⟩
  else if c = 'D' then ⟨27, 37, "auto"⟩
  else if c = 'E' then ⟨38, 42, "host"⟩
  else ⟨1, 42, "host"⟩

/-- A card of newDeck42. -/
structure Card where
  id : String
  titre : String
  texte : String
  imperative : Bool
  requiresInvestment : Bool
  choices : List (String × String)
deriving DecidableEq, Repr

/-- One four-slot bundle of newDeck42 (the deck stores one bundle per turn,
every slot filled). -/
structure Bundle where
  evenement : Card
  proposition : Card
  contrainte : Card
  bonus : Card
deriving DecidableEq, Repr

/-- One card of newDeck42 for a kind and a turn: id is kind-t, imperative
only for contrainte on turns divisible by 3, requiresInvestment only for
proposition on even turns. -/
def deckCard (kind : String) (t : ℕ) : Card :=
  { id := kind ++ "-" ++ Nat.repr t
    titre := kind.toUpper ++ " — Tour " ++ Nat.repr t
    texte := "Texte d'illustration pour " ++ kind ++ " au tour " ++ Nat.repr t ++ "."
    imperative := kind = "contrainte" ∧ t % 3 = 0
    requiresInvestment := kind = "proposition" ∧ t % 2 = 0
    choices :=
      if kind = "proposition" then [("ACCEPT", "Accepter"), ("REFUSE", "Refuser")]
      else [("A", "Accepter"), ("B", "Refuser")] }

/-- newDeck42 of the second revision: a deterministic 42-entry deck. -/
def newDeck42 : List Bundle :=
  (List.range 42).map fun i =>
    let t := i + 1
    { evenement := deckCard "evenement" t
      proposition := deckCard "proposition" t
      contrainte := deckCard "contrainte" t
      bonus := deckCard "bonus" t }

/-- A player of the second revision.  lastActive and statusLight are
presentation-only and omitted; tourPerso is nullable (initialised to null
by ensurePlayer before clamping). -/
structure Player where
  id : String
  name : String
  patrimoine : ℚ
  rentenpunkte : ℚ
  salaire : ℚ
  coutDeVie : ℚ
  marqueurs : List String
  answered : Bool
  tourPerso : Option ℕ
deriving DecidableEq

/-- A session of the second revision.  deadline, createdAt and the socket
registries are omitted; decisions are modelled pointwise as in Rev1. -/
structure Session where
  code : String
  age : ℕ
  turn : ℕ
  phase : Char
  deck : List Bundle
  active : Option Bundle
  players : List Player
deriving DecidableEq

/-- clampTourPerso of the second revision, as a function of the session
turn and the player's current tourPerso: in a host-mode phase the personal
turn is locked to the global turn; in an auto-mode phase a null personal
turn defaults to the range start and the result is clamped into the range. -/
def clampTourPerso (sessionTurn : ℕ) (tp : Option ℕ) : ℕ :=
  let b := phaseBounds (phaseForTurn sessionTurn)
  if b.mode = "host" then sessionTurn
  else max b.first (min b.last (tp.getD b.first))

/-- setActiveForGlobal: active := deck[max(1, turn) - 1]. -/
def setActiveForGlobal (s : Session) : Session :=
  { s with active := s.deck.get? (max 1 s.turn - 1) }

/-- hostStart of the second revision: turn 1, derived phase, global active
bundle, and every player's tourPerso re-clamped (the deadline is not
modelled). -/
def hostStart (s : Session) : Session :=
  let s := { s with turn := 1 }
  let s := { s with phase := phaseForTurn s.turn }
  let s := setActiveForGlobal s
  { s with players := s.players.map fun p => { p with tourPerso := some (clampTourPerso s.turn p.tourPerso) } }

/-- hostNext of the second revision: stop at turn 42, otherwise advance the
global turn, recompute phase and active bundle, and re-clamp every
player's tourPerso. -/
def hostNext (s : Session) : Session :=
  if 42 ≤ s.turn then s
  else
    let s := { s with turn := s.turn + 1 }
    let s := { s with phase := phaseForTurn s.turn }
    let s := setActiveForGlobal s
    { s with players := s.players.map fun p => { p with tourPerso := some (clampTourPerso s.turn p.tourPerso) } }

/-- The snapshot produced by personalizedSessionSnapshot, restricted to the
fields the claims concern (code, turn, phase, player summaries and the
active bundle; decisions pass through unchanged and are omitted here). -/
structure Snapshot where
  code : String
  turn : ℕ
  phase : Char
  players : List Player
  active : Option Bundle
deriving DecidableEq

/-- personalizedSessionSnapshot of the second revision: the host keeps the
session's global active bundle; a student in an auto-mode phase gets the
bundle of their personal turn (with the JavaScript falsy fallback of
tourPerso to the global turn, and of a missing deck entry to the global
active bundle); in host mode the student gets the bundle of the global
turn indexed the same way. -/
def personalizedSessionSnapshot (s : Session) (role : String) (playerId : Option String) :
    Snapshot :=
  let base : Snapshot :=
    { code := s.code, turn := s.turn, phase := s.phase, players := s.players, active := s.active }
  if role = "host" then base
  else
    match playerId.bind fun pid => s.players.find? fun p => p.id = pid with
    | none => base
    | some me =>
      let ph := phaseForTurn s.turn
      let mode := (phaseBounds ph).mode
      let idx :=
        if mode = "auto" then max 1 (jsOrN me.tourPerso s.turn) - 1
        else max 1 s.turn - 1
      { base with active := (s.deck.get? idx).or s.active }

end Rev2

namespace ServerJs

/-- A card of the small built-in deck of server.js.  requiresInvestment is
absent on most cards, which JavaScript reads as falsy. -/
structure Card where
  id : String
  type : String
  titre : String
  imperative : Bool
  requiresInvestment : Bool
  texte : String
deriving DecidableEq, Repr

/-- The investment payload of a decision entry; the code coerces the
amounts with unary plus and clamps them with Math.max(0, ...). -/
structure Extra where
  amountInit : ℚ
  amountMonthly : ℚ
deriving DecidableEq, Repr

/-- A stored decision entry of server.js.  The handler stores the entry
object when a choiceId is present; the degenerate branch that can store a
bare string stands for an entry without choiceId and extra, which is how
applyEffects reads it back. -/
structure DecEntry where
  choiceId : Option String
  label : Option String
  extra : Option Extra
deriving DecidableEq, Repr

/-- A player of server.js.  age and profileId do not feed the settlement
and are omitted; ready only mirrors the student:ready flag. -/
structure Player where
  id : String
  name : String
  patrimoine : ℚ
  salaire : ℚ
  coutDeVie : ℚ
  rentenpunkte : ℚ
  marqueurs : List String
  answered : Bool
  ready : Bool
deriving DecidableEq

/-- The four active card slots of a session. -/
structure Active where
  evenement : Option Card
  proposition : Option Card
  contrainte : Option Card
  bonus : Option Card
deriving DecidableEq, Repr

def Active.slot (a : Active) (k : String) : Option Card :=
  if k = "evenement" then a.evenement
  else if k = "proposition" then a.proposition
  else if k = "contrainte" then a.contrainte
  else if k = "bonus" then a.bonus
  else none

/-- A session of server.js.  settings carries the start and end ages used
by the end condition of host:next. -/
structure Session where
  code : String
  status : String
  ageStart : ℕ
  ageEnd : ℕ
  turn : ℕ
  age : ℕ
  phase : String
  players : List Player
  active : Active
  decisions : String → ℕ → String → Option DecEntry

/-- The reference average salary used by the settlement. -/
def avgSalary : ℚ := 42000

/-- The per-card effect step of applyEffects: auto-resolution of imperative
cards without a choice, investment acceptance, and the small id-keyed demo
effects.  Every wealth write except the b1 gain passes through
Math.max(0, ...). -/
def applyCardEffect (p : Player) (card : Card) (entry : Option DecEntry) : Player :=
  let choiceId := entry.bind DecEntry.choiceId
  let extra := entry.bind DecEntry.extra
  if choiceId = none ∧ card.imperative then
    let p :=
      if card.id = "e2" then
        { p with coutDeVie := max 0 ((jsRound (p.coutDeVie * (11/10)) : ℤ) : ℚ) }
      else p
    if card.id = "c1" then { p with patrimoine := max 0 (p.patrimoine - 1200) } else p
  else if card.requiresInvestment ∧ choiceId = some "ACCEPT" ∧ extra.isSome then
    let e := extra.getD ⟨0, 0⟩
    let p := { p with patrimoine := max 0 (p.patrimoine - max 0 e.amountInit) }
    let p := { p with patrimoine := max 0 (p.patrimoine - max 0 e.amountMonthly) }
    if card.titre ∈ p.marqueurs then p else { p with marqueurs := p.marqueurs ++ [card.titre] }
  else
    let p :=
      if card.type = "evenement" ∧ card.id = "e1" ∧ choiceId = some "A" then
        { p with salaire := max 0 ((jsRound (p.salaire * (11/10)) : ℤ) : ℚ)
                 coutDeVie := max 0 ((jsRound (p.coutDeVie * (21/20)) : ℤ) : ℚ) }
      else p
    let p :=
      if card.type = "contrainte" ∧ card.id = "c1" then
        { p with patrimoine := max 0 (p.patrimoine - 1200) }
      else p
    if card.type = "bonus" ∧ card.id = "b1" then { p with patrimoine := p.patrimoine + 1500 }
    else p

/-- The yearly settlement of applyEffects: wealth becomes
max(0, round(wealth + salary - costOfLiving)) and the pension points grow
by the salary ratio clamped into 0..2, rounded to two decimals. -/
def yearlySettle (p : Player) : Player :=
  let net := p.salaire - p.coutDeVie
  { p with patrimoine := max 0 ((jsRound (p.patrimoine + net) : ℤ) : ℚ)
           rentenpunkte := round2 (p.rentenpunkte + clampQ (p.salaire / avgSalary) 0 2) }

/-- The decision-effect pass of applyEffects for one player: fold the
per-card step over the four card types of the active bundle. -/
def applyDecisionsFor (s : Session) (p : Player) : Player :=
  ["evenement", "proposition", "contrainte", "bonus"].foldl
    (fun q ty =>
      match s.active.slot ty with
      | none => q
      | some card => applyCardEffect q card (s.decisions p.id s.turn ty))
    p

/-- applyEffects of server.js: the decision-effect pass followed by the
yearly settlement, for every player. -/
def applyEffects (s : Session) : Session :=
  { s with players := s.players.map fun p => yearlySettle (applyDecisionsFor s p) }

/-- The session registry of server.js, keyed by code. -/
def Store := String → Option Session

def Store.set (store : Store) (code : String) (s : Session) : Store :=
  fun c => if c = code then some s else store c

/-- The state change of the host:next handler on one session: apply the
effects, end the game at the final age, otherwise advance the year, reset
the per-turn player flags and install the next random draw (passed in as
an argument). -/
def hostNextSession (s : Session) (drawn : Active) : Session :=
  let s := applyEffects s
  if s.ageEnd ≤ s.age then { s with status := "ended", phase := "ended" }
  else
    let s := { s with turn := s.turn + 1, age := s.age + 1 }
    let s := { s with players := s.players.map fun (p : Player) => { p with answered := false, ready := false } }
    { s with active := drawn }

/-- The student:decision handler of server.js, restricted to one session:
store the entry and set answered to whether every card type present in the
active bundle has a decision. -/
def studentDecision (s : Session) (pid ty : String) (entry : DecEntry) : Session :=
  let decisions' : String → ℕ → String → Option DecEntry :=
    fun pid' t' ty' => if pid' = pid ∧ t' = s.turn ∧ ty' = ty then some entry else s.decisions pid' t' ty'
  let s := { s with decisions := decisions' }
  let full := ["evenement", "proposition", "contrainte", "bonus"].all fun t =>
    match s.active.slot t with
    | some _ => (s.decisions pid s.turn t).isSome
    | none => true
  { s with players := s.players.map fun q => if q.id = pid then { q with answered := full } else q }

end ServerJs

namespace Unified

/-- A card node of the JSON deck used by part_003 (only the fields the
handlers read are modelled). -/
structure Card where
  id : String
  pile : String
  title : String
deriving DecidableEq, Repr

/-- A decision entry of part_003: choiceId defaults to CHOICE, and the
phase letter and subphase index at submission time are recorded. -/
structure Decision where
  choiceId : String
  extra : Option String
  phase : Option Char
  subphase : Option ℕ
deriving DecidableEq, Repr

/-- A player of part_003.  The profile object and lastActive/status are
presentation-only for the claims and omitted except the answered flag. -/
structure Player where
  id : String
  profileKey : String
  answered : Bool
deriving DecidableEq, Repr

/-- Insert-or-replace on the association list standing for the per-turn
decisions object; keys stay unique, so List.length is the model of
Object.keys(...).length. -/
def upsert (l : List (String × Decision)) (k : String) (v : Decision) :
    List (String × Decision) :=
  if l.any fun kv => kv.1 = k then l.map fun kv => if kv.1 = k then (k, v) else kv
  else l ++ [(k, v)]

/-- A session of part_003.  The random piles and seen-card bookkeeping are
abstracted: handlers that draw cards receive the drawn list as an
argument. -/
structure Session where
  id : String
  code : String
  mode : String
  maxTurns : ℕ
  subphaseIndex : Option ℕ
  phaseLetter : Option Char
  turn : ℕ
  players : List Player
  decisions : String → ℕ → List (String × Decision)
  currentCards : List Card

/-- setMode of part_003: blitz means 10 turns and no subphases, anything
else means long with 42 turns and subphase A. -/
def setMode (s : Session) (mode : String) : Session :=
  let m := if mode = "blitz" then "blitz" else "long"
  { s with mode := m
           maxTurns := if m = "blitz" then 10 else 42
           subphaseIndex := if m = "long" then some 0 else none
           phaseLetter := if m = "long" then some 'A' else none }

/-- nextTurn of part_003: advance the turn, reset the subphase in long
mode, and install the drawn cards. -/
def nextTurn (s : Session) (drawn : List Card) : Session :=
  let s := { s with turn := s.turn + 1 }
  let s := if s.mode = "long" then { s with subphaseIndex := some 0, phaseLetter := some 'A' } else s
  { s with currentCards := drawn }

/-- The host:next / host:nextTurn handler of part_003: refuse beyond
maxTurns, otherwise nextTurn. -/
def hostNext (s : Session) (drawn : List Card) : Session :=
  if s.maxTurns ≤ s.turn then s else nextTurn s drawn

/-- The student:decision handler of part_003: record the decision under the
lowercased card type at the global turn, then set answered to whether at
least four card types have been recorded for that turn — the active card
bundle is not consulted. -/
def studentDecision (s : Session) (pid cardType : String) (choiceId : Option String)
    (extra : Option String) : Session :=
  match s.players.find? fun p => p.id = pid with
  | none => s
  | some p =>
    let t := s.turn
    let key := lowercase cardType
    let d : Decision :=
      { choiceId := choiceId.getD "CHOICE", extra := extra
        phase := s.phaseLetter, subphase := s.subphaseIndex }
    let decs := upsert (s.decisions pid t) key d
    let p := { p with answered := 4 ≤ decs.length }
    { s with decisions := fun pid' t' => if pid' = pid ∧ t' = t then decs else s.decisions pid' t'
             players := s.players.map fun q => if q.id = pid then p else q }

/-- Lookup of a recorded decision for a card type at a turn. -/
def decisionFor (s : Session) (pid : String) (t : ℕ) (ty : String) : Option Decision :=
  (s.decisions pid t).lookup ty

end Unified

/-
  Concrete sample states used by witnesses and counterexamples.
-/

/-- A fresh part_003 session as host:create builds it (long mode, turn 0). -/
def sampleUSession : Unified.Session :=
  { id := "sess0001", code := "QQQQ", mode := "long", maxTurns := 42
    subphaseIndex := some 0, phaseLetter := some 'A', turn := 0
    players := [], decisions := fun _ _ => [], currentCards := [] }

/-- The example player of the specification: wealth 2000, salary 24000,
cost of living 15000, as student:join of server.js creates it. -/
def examplePlayer : ServerJs.Player :=
  { id := "p1", name := "Alice", patrimoine := 2000, salaire := 24000
    coutDeVie := 15000, rentenpunkte := 0, marqueurs := [], answered := false
    ready := false }

/-- A concrete server.js session holding the example player. -/
def sampleSjSession : ServerJs.Session :=
  { code := "SJSMP", status := "running", ageStart := 25, ageEnd := 67
    turn := 0, age := 25, phase := "running", players := [examplePlayer]
    active := ⟨none, none, none, none⟩, decisions := fun _ _ _ => none }

/-- Two students of the first revision, both inside autonomous range B but
at different personal turns. -/
def samplePlayerB8 : Rev1.Player :=
  { id := "stu1", name := "Alice", tourPerso := 8, patrimoine := 0, salaire := 0
    costOfLiving := 0, rentenpunkte := 0, answered := false }

def samplePlayerB9 : Rev1.Player :=
  { id := "stu2", name := "Badri", tourPerso := 9, patrimoine := 0, salaire := 0
    costOfLiving := 0, rentenpunkte := 0, answered := false }

/-- A started first-revision session inside autonomous range B (global turn
8) with the two students above. -/
def sampleAutoSession : Rev1.Session :=
  { code := "GAME", started := true, paused := false, turnGlobal := 8
    phase := 'B', deck := Rev1.generateDeck
    players := [samplePlayerB8, samplePlayerB9], decisions := fun _ _ _ => none }

/-- A part_003 session at turn 1 whose current draw holds a single card of
pile vie, with one joined player. -/
def vieCard : Unified.Card := { id := "vie-01", pile := "vie", title := "Une année de vie" }

def cUPlayer : Unified.Player := { id := "pc", profileKey := "starter", answered := false }

def cUSession : Unified.Session :=
  { id := "sess0002", code := "RRRR", mode := "long", maxTurns := 42
    subphaseIndex := some 0, phaseLetter := some 'A', turn := 1
    players := [cUPlayer], decisions := fun _ _ => [], currentCards := [vieCard] }

/-- The part_003 session above after the player submits decisions for four
card types none of which is the vie card actually drawn. -/
def cUSession4 : Unified.Session :=
  Unified.studentDecision
    (Unified.studentDecision
      (Unified.studentDecision
        (Unified.studentDecision cUSession "pc" "alpha" (some "A") none)
        "pc" "beta" (some "A") none)
      "pc" "gamma" (some "A") none)
    "pc" "delta" (some "A") none

/-
  Theorems.  Each claim Cn of the specification is settled by exactly one
  theorem named spec_cN_..., with a witness theorem where the statement
  carries hypotheses.  Shared helper lemmas come first.
-/

theorem jsRound_eq_round (q : ℚ) : jsRound q = round q := by
  rw [round_eq, jsRound]
  rfl

theorem jsRound_intCast (n : ℤ) : jsRound (n : ℚ) = n := by
  rw [jsRound_eq_round]
  exact round_intCast n

/-- C2: for every turn 1 <= t <= 42 in long mode, phaseFor returns label A
with range 1..7 and host control on 1..7, B with 8..21 autonomous, C with
22..26 host, D with 27..37 autonomous, E with 38..42 host — in both
revisions of server-2.js (phase record, and letter plus phaseBounds); and
in blitz mode (part_003) there is a single flat range of turns 1..10 with
no subphase letters, advanced only by host messages: setMode blitz yields
maxTurns 10 and no phase letter, hostNext keeps the turn within 1..10, and
a student decision never moves the turn. -/
theorem spec_c2_phase_partition (t : ℕ) (h1 : 1 ≤ t) (h42 : t ≤ 42) (s : Unified.Session) :
    (t ≤ 7 → Rev1.phaseForTurn t = ⟨'A', 1, 7, true⟩ ∧ Rev2.phaseForTurn t = 'A') ∧
    (8 ≤ t → t ≤ 21 → Rev1.phaseForTurn t = ⟨'B', 8, 21, false⟩ ∧ Rev2.phaseForTurn t = 'B') ∧
    (22 ≤ t → t ≤ 26 → Rev1.phaseForTurn t = ⟨'C', 22, 26, true⟩ ∧ Rev2.phaseForTurn t = 'C') ∧
    (27 ≤ t → t ≤ 37 → Rev1.phaseForTurn t = ⟨'D', 27, 37, false⟩ ∧ Rev2.phaseForTurn t = 'D') ∧
    (38 ≤ t → Rev1.phaseForTurn t = ⟨'E', 38, 42, true⟩ ∧ Rev2.phaseForTurn t = 'E') ∧
    Rev2.phaseBounds 'A' = ⟨1, 7, "host"⟩ ∧
    Rev2.phaseBounds 'B' = ⟨8, 21, "auto"⟩ ∧
    Rev2.phaseBounds 'C' = ⟨22, 26, "host"⟩ ∧
    Rev2.phaseBounds 'D' = ⟨27, 37, "auto"⟩ ∧
    Rev2.phaseBounds 'E' = ⟨38, 42, "host"⟩ ∧
    (Unified.setMode s "blitz").maxTurns = 10 ∧
    (Unified.setMode s "blitz").phaseLetter = none ∧
    (Unified.setMode s "blitz").subphaseIndex = none ∧
    (Unified.setMode s "long").maxTurns = 42 ∧
    (∀ s' : Unified.Session, s'.maxTurns = 10 → s'.turn ≤ 10 →
      ∀ drawn, (Unified.hostNext s' drawn).turn ≤ 10) ∧
    (∀ pid ty cid ex, (Unified.studentDecision s pid ty cid ex).turn = s.turn) := by
  have hA : ∀ t' < 43, 1 ≤ t' → t' ≤ 7 →
      Rev1.phaseForTurn t' = ⟨'A', 1, 7, true⟩ ∧ Rev2.phaseForTurn t' = 'A' := by decide
  have hB : ∀ t' < 43, 8 ≤ t' → t' ≤ 21 →
      Rev1.phaseForTurn t' = ⟨'B', 8, 21, false⟩ ∧ Rev2.phaseForTurn t' = 'B' := by decide
  have hC : ∀ t' < 43, 22 ≤ t' → t' ≤ 26 →
      Rev1.phaseForTurn t' = ⟨'C', 22, 26, true⟩ ∧ Rev2.phaseForTurn t' = 'C' := by decide
  have hD : ∀ t' < 43, 27 ≤ t' → t' ≤ 37 →
      Rev1.phaseForTurn t' = ⟨'D', 27, 37, false⟩ ∧ Rev2.phaseForTurn t' = 'D' := by decide
  have hE : ∀ t' < 43, 38 ≤ t' → t' ≤ 42 →
      Rev1.phaseForTurn t' = ⟨'E', 38, 42, true⟩ ∧ Rev2.phaseForTurn t' = 'E' := by decide
  refine ⟨hA t (by omega) h1, hB t (by omega), hC t (by omega), hD t (by omega),
    fun h38 => hE t (by omega) h38 h42, by decide, by decide, by decide, by decide,
    by decide, ?_, ?_, ?_, ?_, ?_, ?_⟩
  · simp [Unified.setMode]
  · simp [Unified.setMode]
  · simp [Unified.setMode]
  · simp [Unified.setMode]
  · intro s' hmax hle drawn
    simp only [Unified.hostNext, Unified.nextTurn]
    split
    · exact hle
    · rename_i hlt
      split <;> simp <;> omega
  · intro pid ty cid ex
    unfold Unified.studentDecision
    cases s.players.find? fun p => p.id = pid <;> simp

/-- Witness for C2 at turn 10 and a concrete fresh part_003 session. -/
theorem spec_c2_phase_partition_witness :
    Rev1.phaseForTurn 10 = ⟨'B', 8, 21, false⟩ ∧
    (Unified.setMode sampleUSession "blitz").maxTurns = 10 :=
  ⟨((spec_c2_phase_partition 10 (by decide) (by decide) sampleUSession).2.1 (by decide)
      (by decide)).1,
    (spec_c2_phase_partition 10 (by decide) (by decide) sampleUSession).2.2.2.2.2.2.2.2.2.2.1⟩

/-- C5: one settlement (the yearly-settlement pass of applyEffects in
server.js) sets wealth to max(0, wealth + (salary - costOfLiving)) — for
the integer-valued money fields the code actually holds, so that the
Math.round inside is the identity — and adds clamp(salary / 42000, 0, 2)
to the pension points, rounded to two decimal places; on the example
player (salary 24000, cost of living 15000, wealth 2000) one settlement
yields wealth 11000 and pension points increased by 0.57. -/
theorem spec_c5_settlement (p : ServerJs.Player) (w sal c : ℤ)
    (hw : p.patrimoine = (w : ℚ)) (hs : p.salaire = (sal : ℚ))
    (hc : p.coutDeVie = (c : ℚ)) :
    (ServerJs.yearlySettle p).patrimoine = max 0 (p.patrimoine + (p.salaire - p.coutDeVie)) ∧
    (ServerJs.yearlySettle p).rentenpunkte =
      round2 (p.rentenpunkte + clampQ (p.salaire / 42000) 0 2) ∧
    (ServerJs.yearlySettle examplePlayer).patrimoine = 11000 ∧
    (ServerJs.yearlySettle examplePlayer).rentenpunkte =
      examplePlayer.rentenpunkte + 57/100 := by
  refine ⟨?_, rfl, ?_, ?_⟩
  · show max 0 ((jsRound (p.patrimoine + (p.salaire - p.coutDeVie)) : ℤ) : ℚ) = _
    rw [hw, hs, hc]
    have : (w : ℚ) + ((sal : ℚ) - (c : ℚ)) = ((w + (sal - c) : ℤ) : ℚ) := by push_cast; ring
    rw [this, jsRound_intCast]
  · show max 0 ((jsRound (2000 + (24000 - 15000)) : ℤ) : ℚ) = 11000
    norm_num [jsRound_eq_round, round_eq]
  · show round2 (0 + clampQ (24000 / 42000) 0 2) = (0 : ℚ) + 57/100
    rw [round2, jsRound_eq_round]
    norm_num [clampQ, round_eq, min_def, max_def]

/-- Witness for C5 at the example player. -/
theorem spec_c5_settlement_witness :
    (ServerJs.yearlySettle examplePlayer).patrimoine = 11000 :=
  (spec_c5_settlement examplePlayer 2000 24000 15000 (by norm_num [examplePlayer])
    (by norm_num [examplePlayer]) (by norm_num [examplePlayer])).2.2.1

/-- Counterexample for C6: in the first revision of server-2.js the
decision-effect mutation does not clamp wealth at zero, and that revision
has no settlement step, so negative wealth persists: a freshly joined
player (wealth 0) who refuses the evenement card ends at wealth -200. -/
theorem spec_c6_counterexample :
    ((Rev1.findPlayer
        (Rev1.studentDecision (Rev1.studentJoin (Rev1.defaultSession "GAME") "pz" "Zoé")
          "pz" "evenement" (some "B") (some "Refuser") none)
        "pz").map Rev1.Player.patrimoine) = some (-200) ∧ (-200 : ℤ) < 0 := by
  exact ⟨rfl, by decide⟩

/-- C6 as amended: in server.js every player's wealth is nonnegative after
the settlement pass of applyEffects (the settlement itself clamps at
zero), and the per-card decision effects of applyEffects preserve
nonnegative wealth; the clamping does not hold for the decision effects of
server-2.js, where negative wealth persists. -/
theorem spec_c6_wealth_clamped (s : ServerJs.Session) (p : ServerJs.Player)
    (card : ServerJs.Card) (entry : Option ServerJs.DecEntry)
    (h : 0 ≤ p.patrimoine) :
    (∀ q ∈ (ServerJs.applyEffects s).players, 0 ≤ q.patrimoine) ∧
    0 ≤ (ServerJs.yearlySettle p).patrimoine ∧
    0 ≤ (ServerJs.applyCardEffect p card entry).patrimoine := by
  have hsettle : ∀ q : ServerJs.Player, 0 ≤ (ServerJs.yearlySettle q).patrimoine := by
    intro q
    exact le_max_left 0 _
  refine ⟨?_, hsettle p, ?_⟩
  · intro q hq
    simp only [ServerJs.applyEffects, List.mem_map] at hq
    obtain ⟨r, _, rfl⟩ := hq
    exact hsettle _
  · have hmax : ∀ x : ℚ, (0 : ℚ) ≤ 0 ⊔ x := fun x => le_max_left 0 x
    have h1500 : (0 : ℚ) ≤ 1500 := by norm_num
    unfold ServerJs.applyCardEffect
    dsimp only
    repeat' split
    all_goals try dsimp only
    · exact hmax _
    · exact hmax _
    · exact h
    · exact h
    · exact hmax _
    · exact hmax _
    · exact add_nonneg (hmax _) h1500
    · exact add_nonneg (hmax _) h1500
    · exact add_nonneg h h1500
    · exact add_nonneg h h1500
    · exact hmax _
    · exact hmax _
    · exact h
    · exact h

theorem find_replace (l : List Rev1.Player) (pid : String) (P : Rev1.Player)
    (hP : P.id = pid) (h : (l.find? fun q => q.id = pid).isSome) :
    ((l.map fun q => if q.id = pid then P else q).find? fun q => q.id = pid) = some P := by
  induction l with
  | nil => simp at h
  | cons q l ih =>
    by_cases hq : q.id = pid
    · simp [List.find?_cons, hq, hP]
    · simp only [List.map_cons, if_neg hq]
      rw [List.find?_cons_of_neg _ (by simpa using hq)]
      rw [List.find?_cons_of_neg _ (by simpa using hq)] at h
      exact ih h

theorem findPlayer_setPlayer (s : Rev1.Session) (pid : String) (P : Rev1.Player)
    (hP : P.id = pid) (h : (Rev1.findPlayer s pid).isSome) :
    Rev1.findPlayer (Rev1.setPlayer s pid P) pid = some P :=
  find_replace s.players pid P hP h

theorem findPlayer_id (s : Rev1.Session) (pid : String) (p : Rev1.Player)
    (h : Rev1.findPlayer s pid = some p) : p.id = pid := by
  have := List.find?_some h
  simpa using this

/-- In a host-controlled phase, the student:decision handler records the
decision at the global turn, applies the effects and recomputes answered,
and never advances the personal turn. -/
theorem studentDecision_host_eq (s : Rev1.Session) (pid ty : String)
    (choiceId label : Option String) (extra : Option Rev1.Extra) (p : Rev1.Player)
    (hfind : Rev1.findPlayer s pid = some p)
    (hhost : (Rev1.phaseForTurn s.turnGlobal).host = true) :
    Rev1.studentDecision s pid ty choiceId label extra =
      Rev1.setPlayer
        { s with decisions :=
            s.decisions.set pid s.turnGlobal ty (Rev1.Decision.mk choiceId label extra false) }
        pid
        (Rev1.computeAnsweredForPlayer
          { s with decisions :=
              s.decisions.set pid s.turnGlobal ty (Rev1.Decision.mk choiceId label extra false) }
          (Rev1.applyDecisionEffects p ty (Rev1.Decision.mk choiceId label extra false))) := by
  unfold Rev1.studentDecision
  rw [hfind]
  simp only [hhost, if_true, Bool.true_eq_false, false_and, if_false, if_neg]

/-- In an autonomous phase, the student:decision handler records the
decision at the personal turn and advances the personal turn by one
exactly when the recomputed answered flag is true and the personal turn is
below the phase end. -/
theorem studentDecision_auto_eq (s : Rev1.Session) (pid ty : String)
    (choiceId label : Option String) (extra : Option Rev1.Extra) (p : Rev1.Player)
    (hfind : Rev1.findPlayer s pid = some p)
    (hauto : (Rev1.phaseForTurn s.turnGlobal).host = false) :
    Rev1.studentDecision s pid ty choiceId label extra =
      (fun s' p2 =>
        Rev1.setPlayer s' pid
          (if p2.answered ∧ p2.tourPerso < (Rev1.phaseForTurn s.turnGlobal).last
            then Rev1.computeAnsweredForPlayer s' { p2 with tourPerso := p2.tourPerso + 1 }
            else p2))
        { s with decisions :=
            s.decisions.set pid p.tourPerso ty (Rev1.Decision.mk choiceId label extra false) }
        (Rev1.computeAnsweredForPlayer
          { s with decisions :=
              s.decisions.set pid p.tourPerso ty (Rev1.Decision.mk choiceId label extra false) }
          (Rev1.applyDecisionEffects p ty (Rev1.Decision.mk choiceId label extra false))) := by
  unfold Rev1.studentDecision
  rw [hfind]
  simp only [hauto, Bool.false_eq_true, if_false, if_neg, true_and]

/-- Witness for C6 at the example player with the e1 card and no entry. -/
theorem spec_c6_wealth_clamped_witness :
    0 ≤ (ServerJs.yearlySettle examplePlayer).patrimoine :=
  (spec_c6_wealth_clamped sampleSjSession examplePlayer
    ⟨"e1", "evenement", "Changement de job", false, false, ""⟩ none
    (by norm_num [examplePlayer])).2.1

/-- Existence form of the host-phase student:decision characterization:
the stored player, the unchanged global turn and the updated decision
store. -/
theorem applyDecisionEffects_id (p : Rev1.Player) (ty : String) (d : Rev1.Decision) :
    (Rev1.applyDecisionEffects p ty d).id = p.id := by
  unfold Rev1.applyDecisionEffects
  dsimp only
  repeat' split
  all_goals rfl

theorem studentDecision_host_effects (s : Rev1.Session) (pid ty : String)
    (choiceId label : Option String) (extra : Option Rev1.Extra) (p : Rev1.Player)
    (hfind : Rev1.findPlayer s pid = some p)
    (hhost : (Rev1.phaseForTurn s.turnGlobal).host = true) :
    ∃ p', Rev1.findPlayer (Rev1.studentDecision s pid ty choiceId label extra) pid = some p' ∧
      p'.patrimoine = (Rev1.applyDecisionEffects p ty
        (Rev1.Decision.mk choiceId label extra false)).patrimoine ∧
      p'.id = p.id ∧
      (Rev1.studentDecision s pid ty choiceId label extra).turnGlobal = s.turnGlobal ∧
      (Rev1.studentDecision s pid ty choiceId label extra).decisions =
        s.decisions.set pid s.turnGlobal ty (Rev1.Decision.mk choiceId label extra false) := by
  have hpid := findPlayer_id s pid p hfind
  rw [studentDecision_host_eq s pid ty choiceId label extra p hfind hhost]
  refine ⟨_, findPlayer_setPlayer _ pid _ ((applyDecisionEffects_id p ty _).trans hpid) ?_, rfl,
    applyDecisionEffects_id p ty _, rfl, rfl⟩
  have hsame : Rev1.findPlayer
      { s with decisions :=
          s.decisions.set pid s.turnGlobal ty (Rev1.Decision.mk choiceId label extra false) }
      pid = some p := hfind
  rw [hsame]
  rfl

theorem applyDecisionEffects_evenement_A (p : Rev1.Player) (lbl : Option String)
    (e : Option Rev1.Extra) :
    (Rev1.applyDecisionEffects p "evenement" (Rev1.Decision.mk (some "A") lbl e false)).patrimoine
      = p.patrimoine + 500 := rfl

theorem DecisionStore.set_same (f : Rev1.DecisionStore) (pid : String) (turn : ℕ)
    (ty : String) (d : Rev1.Decision) : f.set pid turn ty d pid turn ty = some d := by
  simp [Rev1.DecisionStore.set]

/-- C10: resubmitting a decision for the same (player, turn, cardType) key
in the first revision of server-2.js overwrites the stored decision (the
store holds the single submitted payload after one or two submissions) but
re-applies the financial effects each time: an accepted evenement choice
adds 500 to wealth on every submission, so two identical submissions add
1000 — decision submission is not idempotent on the player's financial
state. -/
theorem spec_c10_resubmission_cumulative (s : Rev1.Session) (pid : String) (p : Rev1.Player)
    (hfind : Rev1.findPlayer s pid = some p)
    (hhost : (Rev1.phaseForTurn s.turnGlobal).host = true) :
    ((Rev1.findPlayer
        (Rev1.studentDecision s pid "evenement" (some "A") (some "Accepter") none) pid).map
      Rev1.Player.patrimoine = some (p.patrimoine + 500)) ∧
    ((Rev1.findPlayer
        (Rev1.studentDecision
          (Rev1.studentDecision s pid "evenement" (some "A") (some "Accepter") none)
          pid "evenement" (some "A") (some "Accepter") none) pid).map
      Rev1.Player.patrimoine = some (p.patrimoine + 1000)) ∧
    ((Rev1.studentDecision
        (Rev1.studentDecision s pid "evenement" (some "A") (some "Accepter") none)
        pid "evenement" (some "A") (some "Accepter") none).decisions pid s.turnGlobal "evenement"
      = (Rev1.studentDecision s pid "evenement" (some "A") (some "Accepter") none).decisions
          pid s.turnGlobal "evenement") ∧
    ((Rev1.studentDecision s pid "evenement" (some "A") (some "Accepter") none).decisions
        pid s.turnGlobal "evenement"
      = some (Rev1.Decision.mk (some "A") (some "Accepter") none false)) ∧
    p.patrimoine + 1000 ≠ p.patrimoine + 500 := by
  obtain ⟨P1, hf1, hw1, hid1, ht1, hd1⟩ :=
    studentDecision_host_effects s pid "evenement" (some "A") (some "Accepter") none p hfind hhost
  have hhost1 : (Rev1.phaseForTurn
      (Rev1.studentDecision s pid "evenement" (some "A") (some "Accepter") none).turnGlobal).host
      = true := by rw [ht1]; exact hhost
  obtain ⟨P2, hf2, hw2, hid2, ht2, hd2⟩ :=
    studentDecision_host_effects _ pid "evenement" (some "A") (some "Accepter") none P1 hf1 hhost1
  rw [applyDecisionEffects_evenement_A] at hw1 hw2
  refine ⟨?_, ?_, ?_, ?_, by omega⟩
  · rw [hf1, Option.map_some']
    rw [hw1]
  · rw [hf2, Option.map_some']
    rw [hw2, hw1]
    congr 1
    omega
  · rw [hd2, hd1, ht1]
    rw [DecisionStore.set_same, DecisionStore.set_same]
  · rw [hd1, DecisionStore.set_same]

theorem applyDecisionEffects_tourPerso (p : Rev1.Player) (ty : String) (d : Rev1.Decision) :
    (Rev1.applyDecisionEffects p ty d).tourPerso = p.tourPerso := by
  unfold Rev1.applyDecisionEffects
  dsimp only
  repeat' split
  all_goals rfl

theorem phaseBounds_first_le_last (c : Char) :
    (Rev2.phaseBounds c).first ≤ (Rev2.phaseBounds c).last := by
  unfold Rev2.phaseBounds
  split_ifs <;> simp

theorem clampTourPerso_auto_bounds (t2 : ℕ) (tp : Option ℕ)
    (hm : (Rev2.phaseBounds (Rev2.phaseForTurn t2)).mode = "auto") :
    (Rev2.phaseBounds (Rev2.phaseForTurn t2)).first ≤ Rev2.clampTourPerso t2 tp ∧
    Rev2.clampTourPerso t2 tp ≤ (Rev2.phaseBounds (Rev2.phaseForTurn t2)).last := by
  have hhost : ¬ ((Rev2.phaseBounds (Rev2.phaseForTurn t2)).mode = "host") := by
    rw [hm]; decide
  unfold Rev2.clampTourPerso
  rw [if_neg hhost]
  exact ⟨le_max_left _ _,
    max_le (phaseBounds_first_le_last _) (min_le_left _ _)⟩

theorem clampTourPerso_auto_mono (t2 v : ℕ)
    (hm : (Rev2.phaseBounds (Rev2.phaseForTurn t2)).mode = "auto")
    (hv : v ≤ (Rev2.phaseBounds (Rev2.phaseForTurn t2)).last) :
    v ≤ Rev2.clampTourPerso t2 (some v) := by
  have hhost : ¬ ((Rev2.phaseBounds (Rev2.phaseForTurn t2)).mode = "host") := by
    rw [hm]; decide
  unfold Rev2.clampTourPerso
  rw [if_neg hhost]
  calc v = min (Rev2.phaseBounds (Rev2.phaseForTurn t2)).last ((some v).getD _) := by
        simp [min_eq_right hv]
    _ ≤ _ := le_max_right _ _

/-- C4: in an autonomous phase of the first revision of server-2.js, a
student:decision submission changes the submitting player's personal turn
by at most one; it increases by exactly one precisely when the recomputed
answered flag is true after recording the submission and the personal turn
is still below the phase's upper bound; the personal turn never exceeds
that bound and never decreases.  The clampTourPerso helper of the second
revision keeps an auto-mode personal turn inside the phase bounds and does
not decrease a personal turn already within the bound. -/
theorem spec_c4_personal_turn (s : Rev1.Session) (pid ty : String)
    (choiceId label : Option String) (extra : Option Rev1.Extra) (p : Rev1.Player)
    (hfind : Rev1.findPlayer s pid = some p)
    (hauto : (Rev1.phaseForTurn s.turnGlobal).host = false)
    (hbound : p.tourPerso ≤ (Rev1.phaseForTurn s.turnGlobal).last) :
    (∃ p', Rev1.findPlayer (Rev1.studentDecision s pid ty choiceId label extra) pid = some p' ∧
      p.tourPerso ≤ p'.tourPerso ∧
      p'.tourPerso ≤ (Rev1.phaseForTurn s.turnGlobal).last ∧
      (p'.tourPerso = p.tourPerso + 1 ∨ p'.tourPerso = p.tourPerso) ∧
      (p'.tourPerso = p.tourPerso + 1 ↔
        (Rev1.computeAnsweredForPlayer
          { s with decisions :=
              s.decisions.set pid p.tourPerso ty (Rev1.Decision.mk choiceId label extra false) }
          (Rev1.applyDecisionEffects p ty
            (Rev1.Decision.mk choiceId label extra false))).answered = true ∧
        p.tourPerso < (Rev1.phaseForTurn s.turnGlobal).last)) ∧
    (∀ t2 tp, (Rev2.phaseBounds (Rev2.phaseForTurn t2)).mode = "auto" →
      (Rev2.phaseBounds (Rev2.phaseForTurn t2)).first ≤ Rev2.clampTourPerso t2 tp ∧
      Rev2.clampTourPerso t2 tp ≤ (Rev2.phaseBounds (Rev2.phaseForTurn t2)).last) ∧
    (∀ t2 v, (Rev2.phaseBounds (Rev2.phaseForTurn t2)).mode = "auto" →
      v ≤ (Rev2.phaseBounds (Rev2.phaseForTurn t2)).last →
      v ≤ Rev2.clampTourPerso t2 (some v)) := by
  refine ⟨?_, clampTourPerso_auto_bounds, clampTourPerso_auto_mono⟩
  have hpid := findPlayer_id s pid p hfind
  rw [studentDecision_auto_eq s pid ty choiceId label extra p hfind hauto]
  simp only []
  by_cases hC :
      ((Rev1.computeAnsweredForPlayer
        { s with decisions :=
            s.decisions.set pid p.tourPerso ty (Rev1.Decision.mk choiceId label extra false) }
        (Rev1.applyDecisionEffects p ty
          (Rev1.Decision.mk choiceId label extra false))).answered = true ∧
      (Rev1.computeAnsweredForPlayer
        { s with decisions :=
            s.decisions.set pid p.tourPerso ty (Rev1.Decision.mk choiceId label extra false) }
        (Rev1.applyDecisionEffects p ty
          (Rev1.Decision.mk choiceId label extra false))).tourPerso <
        (Rev1.phaseForTurn s.turnGlobal).last)
  all_goals
    have htp : (Rev1.computeAnsweredForPlayer
        { s with decisions :=
            s.decisions.set pid p.tourPerso ty (Rev1.Decision.mk choiceId label extra false) }
        (Rev1.applyDecisionEffects p ty
          (Rev1.Decision.mk choiceId label extra false))).tourPerso = p.tourPerso :=
      applyDecisionEffects_tourPerso p ty _
  · rw [if_pos hC]
    refine ⟨_, findPlayer_setPlayer _ pid _ ?_ ?_, ?_, ?_, ?_, ?_⟩
    · exact (applyDecisionEffects_id p ty _).trans hpid
    · show (Rev1.findPlayer s pid).isSome = true
      rw [hfind]
      rfl
    · show p.tourPerso ≤ _ + 1
      rw [htp]
      omega
    · show _ + 1 ≤ _
      rw [htp]
      exact htp ▸ hC.2
    · left
      show _ + 1 = p.tourPerso + 1
      rw [htp]
    · constructor
      · intro _
        exact ⟨hC.1, htp ▸ hC.2⟩
      · intro _
        show _ + 1 = p.tourPerso + 1
        rw [htp]
  · rw [if_neg hC]
    refine ⟨_, findPlayer_setPlayer _ pid _ ?_ ?_, ?_, ?_, ?_, ?_⟩
    · exact (applyDecisionEffects_id p ty _).trans hpid
    · show (Rev1.findPlayer s pid).isSome = true
      rw [hfind]
      rfl
    · rw [htp]
    · rw [htp]
      exact hbound
    · right
      exact htp
    · constructor
      · intro habs
        rw [htp] at habs
        omega
      · intro hboth
        exact absurd ⟨hboth.1, htp ▸ hboth.2⟩ hC

/-- Witness for C4 on the started autonomous-range session, student stu1
at personal turn 8 submitting an accepted evenement decision. -/
theorem spec_c4_personal_turn_witness :
    ∃ p', Rev1.findPlayer
        (Rev1.studentDecision sampleAutoSession "stu1" "evenement" (some "A") (some "Accepter")
          none) "stu1" = some p' ∧
      samplePlayerB8.tourPerso ≤ p'.tourPerso := by
  obtain ⟨⟨p', h1, h2, _⟩, _, _⟩ :=
    spec_c4_personal_turn sampleAutoSession "stu1" "evenement" (some "A") (some "Accepter") none
      samplePlayerB8 rfl (by decide) (by decide)
  exact ⟨p', h1, h2⟩

/-- Witness for C10 on the started autonomous-range session with a
host-phase variant: a concrete session at global turn 1. -/
theorem spec_c10_resubmission_cumulative_witness :
    ((Rev1.findPlayer
        (Rev1.studentDecision (Rev1.studentJoin (Rev1.defaultSession "GAME") "pz" "Zoé")
          "pz" "evenement" (some "A") (some "Accepter") none) "pz").map
      Rev1.Player.patrimoine = some 500) := by
  have h := spec_c10_resubmission_cumulative
    (Rev1.studentJoin (Rev1.defaultSession "GAME") "pz" "Zoé") "pz"
    (Rev1.computeAnsweredForPlayer
      (Rev1.studentJoin (Rev1.defaultSession "GAME") "pz" "Zoé")
      { Rev1.makeBlankPlayer "pz" "Zoé" with tourPerso := 1 })
    rfl (by decide)
  simpa using h.1

/-- Counterexample for C7: in part_003 the answered flag is set to whether
at least four card types have been recorded for the global turn, without
consulting the drawn bundle: after submitting decisions for four card
types absent from the draw, the player is marked answered even though the
vie card actually present has no decision. -/
theorem spec_c7_counterexample :
    ((cUSession4.players.find? fun q => q.id = "pc").map Unified.Player.answered
        = some true) ∧
    Unified.decisionFor cUSession4 "pc" 1 "vie" = none ∧
    vieCard ∈ cUSession4.currentCards := by
  refine ⟨by decide, by decide, by decide⟩

/-- C7 as amended: in server-2.js (computeAnsweredForPlayer) the answered
flag is true exactly when a decision exists for every card type present in
the deck bundle of the player's relevant turn (global turn in a
host-controlled phase, personal turn otherwise), and it is false whenever
some card type is required at the relevant turn but no decision exists
there — in particular on entering a fresh turn; in server.js, host:next
explicitly resets every player's answered flag to false when the game
continues, and the student:decision handler sets the submitting player's
flag to true exactly when every card type present in the active bundle
has a recorded decision after the submission; in part_003, by contrast,
the submitting player's flag becomes true exactly when at least four card
types have been recorded for the global turn, regardless of the bundle. -/
theorem spec_c7_answered_rule (s : Rev1.Session) (p : Rev1.Player)
    (sj : ServerJs.Session) (drawn : ServerJs.Active)
    (hage : sj.age < sj.ageEnd) :
    ((Rev1.computeAnsweredForPlayer s p).answered = true ↔
      ∀ k ∈ Rev1.requiredTypes s.deck (Rev1.relevantTurn s p),
        (s.decisions p.id (Rev1.relevantTurn s p) k).isSome) ∧
    (∀ (s2 : Rev1.Session) (q : Rev1.Player),
      Rev1.requiredTypes s2.deck (Rev1.relevantTurn s2 q) ≠ [] →
      (∀ k, s2.decisions q.id (Rev1.relevantTurn s2 q) k = none) →
      (Rev1.computeAnsweredForPlayer s2 q).answered = false) ∧
    (∀ q ∈ (ServerJs.hostNextSession sj drawn).players, q.answered = false) ∧
    (∀ (sj2 : ServerJs.Session) (pid ty : String) (entry : ServerJs.DecEntry),
      ∀ q ∈ (ServerJs.studentDecision sj2 pid ty entry).players, q.id = pid →
        (q.answered = true ↔
          ∀ k ∈ ["evenement", "proposition", "contrainte", "bonus"],
            (sj2.active.slot k).isSome →
              ((ServerJs.studentDecision sj2 pid ty entry).decisions pid sj2.turn k).isSome)) ∧
    (∀ (u : Unified.Session) (pid cardType : String) (cid ex : Option String),
      ∀ q ∈ (Unified.studentDecision u pid cardType cid ex).players, q.id = pid →
        (q.answered = true ↔
          4 ≤ ((Unified.studentDecision u pid cardType cid ex).decisions pid u.turn).length)) := by
  refine ⟨?_, ?_, ?_, ?_, ?_⟩
  · unfold Rev1.computeAnsweredForPlayer
    dsimp only
    rw [List.all_eq_true]
  · intro s2 q hne hnone
    unfold Rev1.computeAnsweredForPlayer
    dsimp only
    cases hreq : Rev1.requiredTypes s2.deck (Rev1.relevantTurn s2 q) with
    | nil => exact absurd hreq hne
    | cons k ks => simp [hnone k]
  · intro q hq
    unfold ServerJs.hostNextSession at hq
    have hage2 : (ServerJs.applyEffects sj).age = sj.age := rfl
    have hageEnd2 : (ServerJs.applyEffects sj).ageEnd = sj.ageEnd := rfl
    rw [if_neg (by rw [hage2, hageEnd2]; omega :
      ¬ ((ServerJs.applyEffects sj).ageEnd ≤ (ServerJs.applyEffects sj).age))] at hq
    simp only [List.mem_map] at hq
    obtain ⟨r, _, rfl⟩ := hq
    rfl
  · intro sj2 pid ty entry q hq hqid
    unfold ServerJs.studentDecision at hq ⊢
    dsimp only at hq ⊢
    rw [List.mem_map] at hq
    obtain ⟨r, hr, rfl⟩ := hq
    by_cases hrid : r.id = pid
    · rw [if_pos hrid]
      dsimp only
      rw [List.all_eq_true]
      apply forall₂_congr
      intro k hk
      cases hslot : sj2.active.slot k <;> simp [hslot]
    · rw [if_neg hrid] at hqid
      exact absurd hqid hrid
  · intro u pid cardType cid ex q hq hqid
    unfold Unified.studentDecision at hq ⊢
    cases hfind : u.players.find? fun r => r.id = pid with
    | none =>
        rw [hfind] at hq
        dsimp only at hq
        exfalso
        have hnot := List.find?_eq_none.mp hfind q hq
        simp [hqid] at hnot
    | some p0 =>
        rw [hfind] at hq
        dsimp only at hq ⊢
        rw [List.mem_map] at hq
        obtain ⟨r, hr, rfl⟩ := hq
        by_cases hrid : r.id = pid
        · rw [if_pos hrid]
          dsimp only
          rw [if_pos ⟨rfl, rfl⟩]
          exact decide_eq_true_iff
        · rw [if_neg hrid] at hqid
          exact absurd hqid hrid

/-- Witness for C7: on the started autonomous session, the student at
personal turn 8 with no recorded decisions is computed unanswered. -/
theorem spec_c7_answered_rule_witness :
    (Rev1.computeAnsweredForPlayer sampleAutoSession samplePlayerB8).answered = false :=
  (spec_c7_answered_rule sampleAutoSession samplePlayerB8 sampleSjSession
    ⟨none, none, none, none⟩ (by norm_num [sampleSjSession])).2.1
    sampleAutoSession samplePlayerB8 (by decide) (fun k => rfl)

theorem phaseA_of_le7 (t : ℕ) (h : t ≤ 7) : Rev1.phaseForTurn t = ⟨'A', 1, 7, true⟩ := by
  have : ∀ t' < 8, Rev1.phaseForTurn t' = ⟨'A', 1, 7, true⟩ := by decide
  exact this t (by omega)

theorem studentDecision_projections (s : Rev1.Session) (pid ty : String)
    (choiceId label : Option String) (extra : Option Rev1.Extra) :
    (Rev1.studentDecision s pid ty choiceId label extra).turnGlobal = s.turnGlobal ∧
    (Rev1.studentDecision s pid ty choiceId label extra).paused = s.paused := by
  unfold Rev1.studentDecision
  cases Rev1.findPlayer s pid <;> simp [Rev1.setPlayer]

theorem studentJoin_projections (s : Rev1.Session) (freshId name : String) :
    (Rev1.studentJoin s freshId name).turnGlobal = s.turnGlobal ∧
    (Rev1.studentJoin s freshId name).paused = s.paused := by
  unfold Rev1.studentJoin
  simp

theorem studentReady_projections (s : Rev1.Session) (pid : String) :
    (Rev1.studentReady s pid).turnGlobal = s.turnGlobal ∧
    (Rev1.studentReady s pid).paused = s.paused := by
  unfold Rev1.studentReady
  cases Rev1.findPlayer s pid <;> simp [Rev1.setPlayer]

theorem hostEditDecision_projections (s : Rev1.Session) (pid : String) (turn : Option ℕ)
    (ty : String) (choiceId label : Option String) (extra : Option Rev1.Extra) :
    (Rev1.hostEditDecision s pid turn ty choiceId label extra).turnGlobal = s.turnGlobal ∧
    (Rev1.hostEditDecision s pid turn ty choiceId label extra).paused = s.paused := by
  unfold Rev1.hostEditDecision
  cases Rev1.findPlayer s pid <;> simp [Rev1.setPlayer]

/-- The session invariant of the first revision: the global turn stays in
the A range and the pause is never set.  One handler invocation preserves
it. -/
theorem step_preserves_inv (s s' : Rev1.Session) (hstep : Rev1.Step s s')
    (h : 1 ≤ s.turnGlobal ∧ s.turnGlobal ≤ 7 ∧ s.paused = false) :
    1 ≤ s'.turnGlobal ∧ s'.turnGlobal ≤ 7 ∧ s'.paused = false := by
  obtain ⟨h1, h7, hp⟩ := h
  cases hstep with
  | hostResume =>
      refine ⟨h1, h7, ?_⟩
      show decide (s.turnGlobal = 21) = false
      simp only [decide_eq_false_iff_not]
      omega
  | hostStart =>
      refine ⟨?_, ?_, ?_⟩
      · show 1 ≤ 1
        exact le_refl 1
      · show (1 : ℕ) ≤ 7
        decide
      · rfl
  | hostNext =>
      unfold Rev1.hostNext
      rw [phaseA_of_le7 s.turnGlobal h7]
      rw [if_neg (show ¬ ((⟨'A', 1, 7, true⟩ : Rev1.Phase).host = false) by decide)]
      split
      · rename_i hlt
        have hlt7 : s.turnGlobal < 7 := hlt
        refine ⟨?_, ?_, ?_⟩
        · show 1 ≤ s.turnGlobal + 1
          omega
        · show s.turnGlobal + 1 ≤ 7
          omega
        · show decide (s.turnGlobal + 1 = 21) = false
          simp only [decide_eq_false_iff_not]
          omega
      · dsimp only
        split
        · rename_i h21
          exfalso
          have h21' : s.turnGlobal = 21 := h21
          omega
        · refine ⟨h1, h7, ?_⟩
          show decide (s.turnGlobal = 21) = false
          simp only [decide_eq_false_iff_not]
          omega
  | hostContinue =>
      unfold Rev1.hostContinue
      rw [if_neg (by omega : ¬ s.turnGlobal = 21)]
      refine ⟨h1, h7, ?_⟩
      show decide (s.turnGlobal = 21) = false
      simp only [decide_eq_false_iff_not]
      omega
  | hostEditDecision pid turn ty choiceId label extra =>
      obtain ⟨ht, hpz⟩ := hostEditDecision_projections s pid turn ty choiceId label extra
      rw [ht, hpz]
      exact ⟨h1, h7, hp⟩
  | studentJoin freshId name =>
      obtain ⟨ht, hpz⟩ := studentJoin_projections s freshId name
      rw [ht, hpz]
      exact ⟨h1, h7, hp⟩
  | studentReady pid =>
      obtain ⟨ht, hpz⟩ := studentReady_projections s pid
      rw [ht, hpz]
      exact ⟨h1, h7, hp⟩
  | studentDecision pid ty choiceId label extra =>
      obtain ⟨ht, hpz⟩ := studentDecision_projections s pid ty choiceId label extra
      rw [ht, hpz]
      exact ⟨h1, h7, hp⟩

theorem reachable_inv (code : String) (s : Rev1.Session) (h : Rev1.Reachable code s) :
    1 ≤ s.turnGlobal ∧ s.turnGlobal ≤ 7 ∧ s.paused = false := by
  induction h with
  | refl => exact ⟨le_refl 1, show (1 : ℕ) ≤ 7 by decide, rfl⟩
  | tail hsteps hstep ih => exact step_preserves_inv _ _ hstep ih

/-- C9: in the first revision of server-2.js, every reachable session state
has global turn at most 7 (so its phase is A and the checkpoint pause is
never set — phases B through E are unreachable); host:next never
increments a turn that sits at its phase end, and host:continue changes
the turn only when it is exactly 21. -/
theorem spec_c9_turn_bounded (code : String) (s : Rev1.Session)
    (h : Rev1.Reachable code s) :
    s.turnGlobal ≤ 7 ∧
    (Rev1.phaseForTurn s.turnGlobal).id = 'A' ∧
    s.paused = false ∧
    (∀ s2 : Rev1.Session, s2.turnGlobal = (Rev1.phaseForTurn s2.turnGlobal).last →
      (Rev1.hostNext s2).turnGlobal = s2.turnGlobal) ∧
    (∀ s2 : Rev1.Session, s2.turnGlobal ≠ 21 →
      (Rev1.hostContinue s2).turnGlobal = s2.turnGlobal) := by
  obtain ⟨h1, h7, hp⟩ := reachable_inv code s h
  refine ⟨h7, by rw [phaseA_of_le7 s.turnGlobal h7], hp, ?_, ?_⟩
  · intro s2 hend
    unfold Rev1.hostNext
    by_cases hh : (Rev1.phaseForTurn s2.turnGlobal).host = false
    · rw [if_pos hh]
    · rw [if_neg hh, if_neg (by omega)]
      by_cases h21 : (Rev1.recalcPhase s2).turnGlobal = 21
      · rw [if_pos h21]
        rfl
      · rw [if_neg h21]
        rfl
  · intro s2 h21
    unfold Rev1.hostContinue
    rw [if_neg h21]
    rfl

/-- Witness for C9 at the fresh session, reachable by the empty sequence. -/
theorem spec_c9_turn_bounded_witness :
    (Rev1.defaultSession "GAME").turnGlobal ≤ 7 ∧
    (Rev1.defaultSession "GAME").paused = false := by
  obtain ⟨h7, _, hp, _, _⟩ :=
    spec_c9_turn_bounded "GAME" (Rev1.defaultSession "GAME") Relation.ReflTransGen.refl
  exact ⟨h7, hp⟩

/-- C3: in every reachable state of the first revision of server-2.js the
paused flag holds exactly when the global turn is 21; at turn 21 the
host:next handler is a strict no-op (phase B is not host-controlled), so
advance never clears the checkpoint pause, while host:continue — and only
it — moves the turn to 22 and clears the pause. -/
theorem spec_c3_pause_iff (code : String) (s : Rev1.Session)
    (h : Rev1.Reachable code s) :
    (s.paused = true ↔ s.turnGlobal = 21) ∧
    (∀ s2 : Rev1.Session, s2.turnGlobal = 21 → Rev1.hostNext s2 = s2) ∧
    (∀ s2 : Rev1.Session, s2.turnGlobal = 21 →
      (Rev1.hostContinue s2).turnGlobal = 22 ∧ (Rev1.hostContinue s2).paused = false) := by
  obtain ⟨h1, h7, hp⟩ := reachable_inv code s h
  refine ⟨?_, ?_, ?_⟩
  · rw [hp]
    constructor
    · intro hfalse
      exact absurd hfalse (by decide)
    · intro h21
      omega
  · intro s2 h21
    unfold Rev1.hostNext
    rw [show Rev1.phaseForTurn s2.turnGlobal = ⟨'B', 8, 21, false⟩ from by
      rw [h21]; decide]
    rfl
  · intro s2 h21
    unfold Rev1.hostContinue
    rw [if_pos h21]
    constructor
    · simp [Rev1.recalcPhase, Rev1.setPlayer]
    · simp [Rev1.recalcPhase, Rev1.setPlayer]

/-- Witness for C3 at the fresh session. -/
theorem spec_c3_pause_iff_witness :
    ((Rev1.defaultSession "GAME").paused = true ↔
      (Rev1.defaultSession "GAME").turnGlobal = 21) :=
  (spec_c3_pause_iff "GAME" (Rev1.defaultSession "GAME") Relation.ReflTransGen.refl).1

theorem auto_range (t : ℕ) (h : (Rev1.phaseForTurn t).host = false) :
    8 ≤ t ∧ t ≤ 37 := by
  unfold Rev1.phaseForTurn at h
  split_ifs at h <;> simp_all <;> omega

set_option maxHeartbeats 1000000 in
theorem evenement_titre_ne (t1 : ℕ) : ∀ _ : t1 < 38, ∀ t2 < 38, t1 ≠ t2 →
    ("Évènement de l\u0027année " ++ Nat.repr t1 : String) ≠
      "Évènement de l\u0027année " ++ Nat.repr t2 := by
  revert t1
  decide

theorem activeAt_generateDeck (t : ℕ) (h1 : 1 ≤ t) (h42 : t ≤ 42) :
    Rev1.activeAt Rev1.generateDeck t = some
      ⟨some (Rev1.cardFromTemplate t "evenement"),
       some (Rev1.cardFromTemplate t "proposition"),
       some (Rev1.cardFromTemplate t "contrainte"),
       some (Rev1.cardFromTemplate t "bonus")⟩ := by
  unfold Rev1.activeAt Rev1.generateDeck
  rw [List.get?_map, List.get?_range (by omega : t - 1 < 42)]
  dsimp only [Option.map]
  rw [show t - 1 + 1 = t from by omega]
  rfl

/-- The student snapshot of the first revision during an autonomous phase
selects the bundle by the student's own personal turn. -/
theorem sessionViewFor_student_auto (s : Rev1.Session) (pid : String) (p : Rev1.Player)
    (hauto : (Rev1.phaseForTurn s.turnGlobal).host = false)
    (hfind : Rev1.findPlayer s pid = some p) :
    (Rev1.sessionViewFor (some ⟨Rev1.Role.student, some pid⟩) s).active
      = Rev1.activeAt s.deck p.tourPerso := by
  unfold Rev1.sessionViewFor
  dsimp only [Option.bind]
  rw [hauto, hfind]
  simp

/-- C1: in the first revision of server-2.js, during an autonomous phase a
student snapshot selects the active card bundle by the student's own
personal turn while the host snapshot — and every snapshot in a
host-controlled phase — selects it by the global turn; two students at
different personal turns inside the autonomous ranges therefore receive
different bundles of the generated deck, and in a host-controlled phase
every recipient receives the identical global bundle.  The second
revision's personalizedSessionSnapshot implements the same selection: the
host keeps the session-global bundle and an auto-mode student is served
deck[tourPerso - 1]. -/
theorem spec_c1_snapshot_selection (s : Rev1.Session) (pid1 pid2 : String)
    (p1 p2 : Rev1.Player)
    (hdeck : s.deck = Rev1.generateDeck)
    (hauto : (Rev1.phaseForTurn s.turnGlobal).host = false)
    (h1 : Rev1.findPlayer s pid1 = some p1)
    (h2 : Rev1.findPlayer s pid2 = some p2)
    (ht1 : (Rev1.phaseForTurn p1.tourPerso).host = false)
    (hsame : Rev1.phaseForTurn p2.tourPerso = Rev1.phaseForTurn p1.tourPerso)
    (hne : p1.tourPerso ≠ p2.tourPerso) :
    (Rev1.sessionViewFor (some ⟨Rev1.Role.student, some pid1⟩) s).active
      = Rev1.activeAt s.deck p1.tourPerso ∧
    (Rev1.sessionViewFor (some ⟨Rev1.Role.host, none⟩) s).active
      = Rev1.activeAt s.deck s.turnGlobal ∧
    (∀ (s2 : Rev1.Session) (ctx : Option Rev1.Ctx),
      (Rev1.phaseForTurn s2.turnGlobal).host = true →
      (Rev1.sessionViewFor ctx s2).active = Rev1.activeAt s2.deck s2.turnGlobal) ∧
    (Rev1.sessionViewFor (some ⟨Rev1.Role.student, some pid1⟩) s).active
      ≠ (Rev1.sessionViewFor (some ⟨Rev1.Role.student, some pid2⟩) s).active ∧
    (∀ (r2 : Rev2.Session) (pid : String) (me : Rev2.Player) (t : ℕ),
      (Rev2.phaseBounds (Rev2.phaseForTurn r2.turn)).mode = "auto" →
      (r2.players.find? fun q => q.id = pid) = some me →
      me.tourPerso = some t → 1 ≤ t →
      (Rev2.personalizedSessionSnapshot r2 "student" (some pid)).active
        = (r2.deck.get? (t - 1)).or r2.active) ∧
    (∀ r2 : Rev2.Session, (Rev2.personalizedSessionSnapshot r2 "host" none).active
        = r2.active) := by
  have ht2 : (Rev1.phaseForTurn p2.tourPerso).host = false := by rw [hsame]; exact ht1
  obtain ⟨h8a, h37a⟩ := auto_range _ ht1
  obtain ⟨h8b, h37b⟩ := auto_range _ ht2
  refine ⟨sessionViewFor_student_auto s pid1 p1 hauto h1, ?_, ?_, ?_, ?_, ?_⟩
  · unfold Rev1.sessionViewFor
    simp
  · intro s2 ctx hhost
    unfold Rev1.sessionViewFor
    simp only [hhost, Bool.or_true, if_true]
  · rw [sessionViewFor_student_auto s pid1 p1 hauto h1,
      sessionViewFor_student_auto s pid2 p2 hauto h2, hdeck]
    rw [activeAt_generateDeck p1.tourPerso (by omega) (by omega),
      activeAt_generateDeck p2.tourPerso (by omega) (by omega)]
    intro heq
    have hb := Option.some.inj heq
    have hcard : Rev1.cardFromTemplate p1.tourPerso "evenement"
        = Rev1.cardFromTemplate p2.tourPerso "evenement" := by
      have := congrArg Rev1.Bundle.evenement hb
      simpa using this
    have htitre := congrArg Rev1.Card.titre hcard
    exact evenement_titre_ne p1.tourPerso (by omega) p2.tourPerso (by omega) hne htitre
  · intro r2 pid me t hmode hfind htp ht0
    unfold Rev2.personalizedSessionSnapshot
    rw [if_neg (by decide : ¬ (("student" : String) = "host"))]
    dsimp only [Option.bind]
    rw [hfind]
    dsimp only
    rw [hmode]
    rw [if_pos rfl, htp]
    have hjs : jsOrN (some t) r2.turn = t := by
      simp only [jsOrN]
      rw [if_neg (by omega : ¬ t = 0)]
    rw [hjs, max_eq_right (by omega : 1 ≤ t)]
  · intro r2
    unfold Rev2.personalizedSessionSnapshot
    rw [if_pos rfl]

/-- Witness for C1 on the started autonomous-range session: students stu1
(personal turn 8) and stu2 (personal turn 9) receive different bundles. -/
theorem spec_c1_snapshot_selection_witness :
    (Rev1.sessionViewFor (some ⟨Rev1.Role.student, some "stu1"⟩) sampleAutoSession).active
      ≠ (Rev1.sessionViewFor (some ⟨Rev1.Role.student, some "stu2"⟩) sampleAutoSession).active :=
  (spec_c1_snapshot_selection sampleAutoSession "stu1" "stu2" samplePlayerB8 samplePlayerB9
    rfl (by decide) rfl rfl (by decide) (by decide) (by decide)).2.2.2.1

end FinanzWeg
